import Mathlib

/-!
Shallow embedding of the mood-ring visualization engine
(`AdvancedMoodStoneViz` in `mood_ring_app.py`).

The engine's mutable state is the record `VizState` below: the `running`
flag, the `frame` counter and the three owned collections `particles`,
`energy_wisps` and `stress_fragments`.  Python floats are idealized as
real numbers.  Calls to `random.uniform` / `random.choice` are modelled
by oracle parameters (`InitParticleDraws`, `ParticleDraws`, ...): each
definition consumes the draw values it would obtain from the global RNG,
and theorems constrain them to the intervals the corresponding
`random.uniform(a, b)` call guarantees.
-/

namespace MoodRing

noncomputable section

/-- `particle['energy_type']`: `random.choice(['core', 'stress', 'economic'])`. -/
inductive EnergyType where
  | core
  | stress
  | economic
deriving DecidableEq

/-- One element of `self.particles` (a dict in the source). -/
structure Particle where
  x : ℝ
  y : ℝ
  vx : ℝ
  vy : ℝ
  life : ℝ
  max_life : ℝ
  size : ℝ
  energy_type : EnergyType

/-- One element of `self.energy_wisps`. -/
structure Wisp where
  angle : ℝ
  radius : ℝ
  flow_speed : ℝ
  amplitude : ℝ
  frequency : ℝ

/-- One element of `self.stress_fragments`. -/
structure Fragment where
  x : ℝ
  y : ℝ
  target_x : ℝ
  target_y : ℝ
  speed : ℝ
  size : ℝ
  chaos_factor : ℝ

/-- The mood data record consumed by the visualization (the engine reads
`stress_level`, `economic_pressure`, `life_events`, `colors`, `patterns`,
`name`; all scores are Python ints). -/
structure MoodData where
  name : String
  colors : List String
  stress_level : ℤ
  economic_pressure : ℤ
  life_events : ℤ
  patterns : List String

/-- `self.center_x = self.width // 2` with `self.width = 1000`. -/
def centerX : ℝ := 500

/-- `self.center_y = self.height // 2` with `self.height = 700`. -/
def centerY : ℝ := 350

/-- The full mutable animation state of `AdvancedMoodStoneViz`. -/
structure VizState where
  running : Bool
  frame : ℕ
  particles : List Particle
  energy_wisps : List Wisp
  stress_fragments : List Fragment

/-- Python `int(q)` on an exact rational: truncation toward zero. -/
def pyTruncQ (q : ℚ) : ℤ := if 0 ≤ q then ⌊q⌋ else -⌊-q⌋

/-- `particle_count = max(50, min(200, 150 - self.mood_data['stress_level']))`. -/
def particleCount (stress_level : ℤ) : ℤ := max 50 (min 200 (150 - stress_level))

/-- `wisp_count = max(6, 12 - (self.mood_data['economic_pressure'] // 10))`;
Python `//` is floor division. -/
def wispCount (economic_pressure : ℤ) : ℤ := max 6 (12 - Int.fdiv economic_pressure 10)

/-- `int(30 * stress_intensity)` with `stress_intensity = stress_level / 100`. -/
def fragmentCount (stress_level : ℤ) : ℤ := pyTruncQ (30 * ((stress_level : ℚ) / 100))

/-- The `random.uniform` / `random.choice` results consumed when one core
particle is created in `initialize_particles`:
`dx, dy ~ uniform(-100, 100)`, `vx, vy ~ uniform(-2, 2)`,
`life, max_life ~ uniform(50, 200)`, `size ~ uniform(1, 4)`. -/
structure InitParticleDraws where
  dx : ℝ
  dy : ℝ
  vx : ℝ
  vy : ℝ
  life : ℝ
  max_life : ℝ
  size : ℝ
  energy_type : EnergyType

/-- Creation of one core particle in `initialize_particles`. -/
def initParticle (d : InitParticleDraws) : Particle :=
  { x := centerX + d.dx
    y := centerY + d.dy
    vx := d.vx
    vy := d.vy
    life := d.life
    max_life := d.max_life
    size := d.size
    energy_type := d.energy_type }

/-- The `random.uniform` results consumed when wisp `i` is created:
`radius ~ uniform(80, 150)`, `flow_speed ~ uniform(0.01, 0.03)`,
`amplitude ~ uniform(10, 30)`, `frequency ~ uniform(0.5, 2.0)`. -/
structure InitWispDraws where
  radius : ℝ
  flow_speed : ℝ
  amplitude : ℝ
  frequency : ℝ

/-- Creation of wisp `i` of `n` in `initialize_particles`:
`angle = i * (2 * math.pi / wisp_count)`, the rest random. -/
def initWisp (n : ℕ) (i : ℕ) (d : InitWispDraws) : Wisp :=
  { angle := (i : ℝ) * (2 * Real.pi / (n : ℝ))
    radius := d.radius
    flow_speed := d.flow_speed
    amplitude := d.amplitude
    frequency := d.frequency }

/-- The `random.uniform` results consumed when one stress fragment is
created: `dx, dy ~ uniform(-200, 200)`, `speed ~ uniform(0.5, 2.0)`,
`size ~ uniform(2, 6)`. -/
structure InitFragmentDraws where
  dx : ℝ
  dy : ℝ
  speed : ℝ
  size : ℝ

/-- Creation of one stress fragment in `initialize_particles`; its target
is the fixed center and `chaos_factor` is the profile's stress intensity. -/
def initFragment (stress_intensity : ℝ) (d : InitFragmentDraws) : Fragment :=
  { x := centerX + d.dx
    y := centerY + d.dy
    target_x := centerX
    target_y := centerY
    speed := d.speed
    size := d.size
    chaos_factor := stress_intensity }

/-- `initialize_particles` followed by the constructor's state setup:
`frame = 0`, `running = True`, and the three collections filled with
exactly the computed counts of freshly drawn elements. -/
def initState (md : MoodData) (pd : ℕ → InitParticleDraws)
    (wd : ℕ → InitWispDraws) (fd : ℕ → InitFragmentDraws) : VizState :=
  { running := true
    frame := 0
    particles := (List.range (particleCount md.stress_level).toNat).map
      (fun i => initParticle (pd i))
    energy_wisps := (List.range (wispCount md.economic_pressure).toNat).map
      (fun i => initWisp (wispCount md.economic_pressure).toNat i (wd i))
    stress_fragments := (List.range (fragmentCount md.stress_level).toNat).map
      (fun i => initFragment ((md.stress_level : ℝ) / 100) (fd i)) }

/-- `distance = math.sqrt(dx*dx + dy*dy) if dx*dx + dy*dy > 0 else 1` in
`update_particle_systems`: the divisor of the centripetal normalization. -/
def guardedDistance (dx dy : ℝ) : ℝ :=
  if dx * dx + dy * dy > 0 then Real.sqrt (dx * dx + dy * dy) else 1

/-- The `random.uniform` results consumed when one particle is stepped in
`update_particle_systems`: `chaosX, chaosY ~ uniform(-c, c)` with
`c = stress_level / 100 * 0.3`, and (used only on respawn)
`respawnAngle ~ uniform(0, 2*pi)`, `respawnDist ~ uniform(150, 250)`,
`respawnVx, respawnVy ~ uniform(-1, 1)`. -/
structure ParticleDraws where
  chaosX : ℝ
  chaosY : ℝ
  respawnAngle : ℝ
  respawnDist : ℝ
  respawnVx : ℝ
  respawnVy : ℝ

/-- The per-particle body of `update_particle_systems`: centripetal pull,
stress chaos, position integration, damping, life decrement, and the
respawn-in-place when the decremented life is `<= 0`. -/
def updateParticle (sd : ParticleDraws) (p : Particle) : Particle :=
  let dx := centerX - p.x
  let dy := centerY - p.y
  let distance := guardedDistance dx dy
  let vx := p.vx + dx / distance * 0.08 + sd.chaosX
  let vy := p.vy + dy / distance * 0.08 + sd.chaosY
  let x := p.x + vx
  let y := p.y + vy
  let vx2 := vx * 0.98
  let vy2 := vy * 0.98
  let life := p.life - 1
  if life ≤ 0 then
    { x := centerX + sd.respawnDist * Real.cos sd.respawnAngle
      y := centerY + sd.respawnDist * Real.sin sd.respawnAngle
      vx := sd.respawnVx
      vy := sd.respawnVy
      life := p.max_life
      max_life := p.max_life
      size := p.size
      energy_type := p.energy_type }
  else
    { x := x
      y := y
      vx := vx2
      vy := vy2
      life := life
      max_life := p.max_life
      size := p.size
      energy_type := p.energy_type }

/-- The loop `for particle in self.particles[:]` of
`update_particle_systems`: every particle is stepped with its own RNG
draws; nothing is appended to or removed from the list. -/
def updateParticles (td : ℕ → ParticleDraws) : List Particle → List Particle
  | [] => []
  | p :: ps => updateParticle (td 0) p :: updateParticles (fun i => td (i + 1)) ps

/-- `wisp['angle'] += wisp['flow_speed']`, the only state change performed
by `create_energy_flow_wisps`. -/
def stepWisp (w : Wisp) : Wisp := { w with angle := w.angle + w.flow_speed }

/-- One call of `animate` as a state transition: if `self.running` is
false it returns at once; otherwise the render calls run (of which only
`create_energy_flow_wisps` and `update_particle_systems` mutate state;
`self.stress_fragments` is touched by none of them) and the frame counter
is incremented.  `td i` are the RNG draws consumed for particle `i`. -/
def tick (td : ℕ → ParticleDraws) (s : VizState) : VizState :=
  if s.running then
    { s with
      energy_wisps := s.energy_wisps.map stepWisp
      particles := updateParticles td s.particles
      frame := s.frame + 1 }
  else s

/-- `n` scheduled `animate` calls; `noises k` are the draws of tick `k`. -/
def runTicks (noises : ℕ → ℕ → ParticleDraws) : ℕ → VizState → VizState
  | 0, s => s
  | n + 1, s => runTicks (fun i => noises (i + 1)) n (tick (noises 0) s)

/-- `on_closing`: sets `self.running = False` (the `root.destroy()` call
is external UI teardown and holds no engine state). -/
def stop (s : VizState) : VizState := { s with running := false }

/-- `alpha = particle['life'] / particle['max_life']` in the draw section
of `update_particle_systems`. -/
def drawAlpha (p : Particle) : ℝ := p.life / p.max_life

/-- `size = particle['size'] * alpha`, the drawn radius of a particle. -/
def drawRadius (p : Particle) : ℝ := p.size * drawAlpha p

/-- Value of an ASCII hexadecimal digit, as accepted by CPython
`int(-, 16)`. -/
def hexVal (c : Char) : Option ℕ :=
  if '0' ≤ c ∧ c ≤ '9' then some (c.toNat - Char.toNat '0')
  else if 'a' ≤ c ∧ c ≤ 'f' then some (c.toNat - Char.toNat 'a' + 10)
  else if 'A' ≤ c ∧ c ≤ 'F' then some (c.toNat - Char.toNat 'A' + 10)
  else none

/-- ASCII whitespace stripped by CPython `int(-, 16)`. -/
def pyIsSpace (c : Char) : Bool :=
  c = ' ' ∨ c = Char.ofNat 9 ∨ c = Char.ofNat 10 ∨ c = Char.ofNat 13 ∨
    c = Char.ofNat 11 ∨ c = Char.ofNat 12

/-- CPython `int(s, 16)` on the two-character slices `base_color[1:3]`,
`base_color[3:5]`, `base_color[5:7]` taken in `create_mood_stone_core`
(ASCII inputs): two hex digits, or a sign or one stripped whitespace
character next to a single hex digit; anything else raises `ValueError`,
modelled by `none`. -/
def pyIntHex2 (a b : Char) : Option ℤ :=
  match hexVal a, hexVal b with
  | some va, some vb => some (16 * (va : ℤ) + (vb : ℤ))
  | some va, none => if pyIsSpace b then some (va : ℤ) else none
  | none, some vb =>
    if a = '+' ∨ pyIsSpace a then some (vb : ℤ)
    else if a = '-' then some (-(vb : ℤ)) else none
  | none, none => none

/-- The `if len(base_color) == 7: try: ...` parse of a palette entry in
`create_mood_stone_core`: character 0 is never inspected, characters 1-6
are parsed as three two-character hex slices; `none` models the paths on
which the code keeps `base_color` unchanged (wrong length, or a
`ValueError` from any slice). -/
def pyParseColor (s : String) : Option (ℤ × ℤ × ℤ) :=
  match s.toList with
  | [_, c1, c2, c3, c4, c5, c6] =>
    match pyIntHex2 c1 c2, pyIntHex2 c3 c4, pyIntHex2 c5 c6 with
    | some r, some g, some b => some (r, g, b)
    | _, _, _ => none
  | _ => none

/-- Python `int(x)` on a real: truncation toward zero. -/
def pyTruncR (x : ℝ) : ℤ := if 0 ≤ x then ⌊x⌋ else -⌊-x⌋

/-- `int(max(0, min(255, channel * stress_factor)))` applied to one
parsed channel in `create_mood_stone_core`. -/
def clampChannel (v : ℤ) (stress_factor : ℝ) : ℤ :=
  pyTruncR (max 0 (min 255 ((v : ℝ) * stress_factor)))

/-- One hex digit of the `02x` format. -/
def hexDigitChar (n : ℕ) : Char :=
  if n < 10 then Char.ofNat (Char.toNat '0' + n)
  else Char.ofNat (Char.toNat 'a' + n - 10)

/-- Python `f"{n:02x}"` for the clamped channel values in `[0, 255]`. -/
def toHex2 (n : ℤ) : String :=
  String.mk [hexDigitChar (n.toNat / 16 % 16), hexDigitChar (n.toNat % 16)]

/-- The ring-color computation of `create_mood_stone_core`: a parseable
7-character entry is re-formatted with each channel scaled by the stress
factor and clamped; on every other entry the raw string is kept
(`except: ring_color = base_color` and the `else` branch). -/
def ringColor (base : String) (stress_factor : ℝ) : String :=
  match pyParseColor base with
  | some (r, g, b) =>
    ("#") ++ toHex2 (clampChannel r stress_factor) ++
      toHex2 (clampChannel g stress_factor) ++ toHex2 (clampChannel b stress_factor)
  | none => base

/-- Python float `x % n` for `n > 0`: `x - n * floor(x / n)`. -/
def pyFloatMod (x n : ℝ) : ℝ := x - n * ⌊x / n⌋

/-- `color_index = int((self.frame * 0.01 + ring * 0.2) % len(mood_colors))`
(total: an empty palette, which would raise in Python, is sent to 0). -/
def colorIndex (frame ring n : ℕ) : ℕ :=
  if n = 0 then 0
  else (pyTruncR (pyFloatMod ((frame : ℝ) * 0.01 + (ring : ℝ) * 0.2) (n : ℝ))).toNat

/-- `current_size` of ring `ring` at frame `frame` in
`create_mood_stone_core`: base size minus ring step plus the two pulse
sinusoids, then compressed by economic pressure. -/
def stoneCoreSize (frame : ℕ) (md : MoodData) (ring : ℕ) : ℝ :=
  (100 - (ring : ℝ) * 7 + Real.sin ((frame : ℝ) * 0.04 + (ring : ℝ) * 0.3) * 6 +
      Real.cos ((frame : ℝ) * 0.06 + (ring : ℝ) * 0.2) * 4) *
    (1 - (md.economic_pressure : ℝ) / 100 * 0.25)

/-- One `create_oval` call record of `create_mood_stone_core`. -/
structure Oval where
  color : String
  size : ℝ
  offset_x : ℝ
  offset_y : ℝ

/-- The loop body of `create_mood_stone_core` for ring `ring`: the oval is
emitted only under the guard `if current_size > 0`. -/
def stoneCoreRing (frame : ℕ) (md : MoodData) (ring : ℕ) : Option Oval :=
  if stoneCoreSize frame md ring > 0 then
    some
      { color := ringColor
          (md.colors.getD (colorIndex frame ring md.colors.length) (""))
          (1 + (md.stress_level : ℝ) / 100 * 0.3 *
            Real.sin ((frame : ℝ) * 0.1 + (ring : ℝ)))
        size := stoneCoreSize frame md ring
        offset_x := Real.cos ((ring : ℝ) * 0.4) * 1
        offset_y := Real.sin ((ring : ℝ) * 0.4) * 1 }
  else none

/-- All ovals emitted by one `create_mood_stone_core` call
(`for ring in range(10)`). -/
def stoneCoreOvals (frame : ℕ) (md : MoodData) : List Oval :=
  (List.range 10).filterMap (stoneCoreRing frame md)

/-- The demo mood data built in `main()` (option 2, "Economic Survivor"). -/
def demoMood : MoodData :=
  { name := "The Economic Survivor"
    colors := ["#8B0000", "#B22222", "#CD5C5C", "#F08080", "#FFB6C1"]
    stress_level := 75
    economic_pressure := 85
    life_events := 45
    patterns := ["economic_psychological_spiral", "survival_mode_activation"] }

/-- A profile with both scores at 0 (scenario with `stress_level = 0` and
`economic_pressure = 0`). -/
def calmMood : MoodData :=
  { demoMood with stress_level := 0, economic_pressure := 0 }

/-- Trivial concrete RNG draws for particle creation. -/
def zeroParticleDraws : InitParticleDraws :=
  { dx := 0, dy := 0, vx := 0, vy := 0, life := 0, max_life := 0, size := 0
    energy_type := EnergyType.core }

/-- Trivial concrete RNG draws for wisp creation. -/
def zeroWispDraws : InitWispDraws :=
  { radius := 0, flow_speed := 0, amplitude := 0, frequency := 0 }

/-- Trivial concrete RNG draws for fragment creation. -/
def zeroFragmentDraws : InitFragmentDraws :=
  { dx := 0, dy := 0, speed := 0, size := 0 }

/-- Trivial concrete RNG draws for a particle step. -/
def zeroTickDraws : ParticleDraws :=
  { chaosX := 0, chaosY := 0, respawnAngle := 0, respawnDist := 0
    respawnVx := 0, respawnVy := 0 }

/-- Creation draws giving initial `life = 100.5` and `max_life = 100`,
both inside the `uniform(50, 200)` range, with `life` exceeding
`max_life` by less than the one unit of life spent before the first
draw. -/
def overdrawnInit : InitParticleDraws :=
  { dx := 0, dy := 0, vx := 0, vy := 0, life := 100.5, max_life := 100, size := 2
    energy_type := EnergyType.core }

/-- Creation draws giving initial `life = 200` and `max_life = 50`, both
inside the `uniform(50, 200)` range. -/
def hotInit : InitParticleDraws :=
  { dx := 0, dy := 0, vx := 0, vy := 0, life := 200, max_life := 50, size := 2
    energy_type := EnergyType.core }

/-- A particle whose life reaches 0 on the next step. -/
def dyingParticle : Particle :=
  { x := 3, y := 4, vx := 0, vy := 0, life := 1, max_life := 7, size := 2
    energy_type := EnergyType.stress }

/-- Step draws respawning at angle 0, distance 200, velocity (0, 1). -/
def respawnDraws : ParticleDraws :=
  { chaosX := 0, chaosY := 0, respawnAngle := 0, respawnDist := 200
    respawnVx := 0, respawnVy := 1 }

/-- A concrete already-stopped state. -/
def idleState : VizState :=
  { running := false, frame := 3, particles := [], energy_wisps := []
    stress_fragments := [] }

end

theorem length_updateParticles (td : ℕ → ParticleDraws) (l : List Particle) :
    (updateParticles td l).length = l.length := by
  induction l generalizing td with
  | nil => rfl
  | cons p ps ih => simp [updateParticles, ih]

theorem tick_particles_length (td : ℕ → ParticleDraws) (s : VizState) :
    (tick td s).particles.length = s.particles.length := by
  unfold tick
  split
  · simp [length_updateParticles]
  · rfl

theorem tick_wisps_length (td : ℕ → ParticleDraws) (s : VizState) :
    (tick td s).energy_wisps.length = s.energy_wisps.length := by
  unfold tick
  split
  · simp
  · rfl

theorem tick_fragments (td : ℕ → ParticleDraws) (s : VizState) :
    (tick td s).stress_fragments = s.stress_fragments := by
  unfold tick
  split <;> rfl

theorem runTicks_particles_length (noises : ℕ → ℕ → ParticleDraws) (n : ℕ)
    (s : VizState) : (runTicks noises n s).particles.length = s.particles.length := by
  induction n generalizing noises s with
  | zero => rfl
  | succ n ih => rw [runTicks, ih, tick_particles_length]

theorem runTicks_wisps_length (noises : ℕ → ℕ → ParticleDraws) (n : ℕ)
    (s : VizState) : (runTicks noises n s).energy_wisps.length = s.energy_wisps.length := by
  induction n generalizing noises s with
  | zero => rfl
  | succ n ih => rw [runTicks, ih, tick_wisps_length]

theorem runTicks_fragments (noises : ℕ → ℕ → ParticleDraws) (n : ℕ)
    (s : VizState) : (runTicks noises n s).stress_fragments = s.stress_fragments := by
  induction n generalizing noises s with
  | zero => rfl
  | succ n ih => rw [runTicks, ih, tick_fragments]

/-- Claim C1: for every profile and every number of ticks `n ≥ 0` after
initialization, the sizes of the three owned collections (core particles,
energy wisps, stress fragments) are unchanged: no tick adds an element to
or removes an element from any of them; a particle whose life reaches
`≤ 0` is reset in place, never removed. -/
theorem collection_sizes_invariant (md : MoodData) (pd : ℕ → InitParticleDraws)
    (wd : ℕ → InitWispDraws) (fd : ℕ → InitFragmentDraws)
    (noises : ℕ → ℕ → ParticleDraws) (n : ℕ) :
    (runTicks noises n (initState md pd wd fd)).particles.length =
        (initState md pd wd fd).particles.length ∧
      (runTicks noises n (initState md pd wd fd)).energy_wisps.length =
        (initState md pd wd fd).energy_wisps.length ∧
      (runTicks noises n (initState md pd wd fd)).stress_fragments.length =
        (initState md pd wd fd).stress_fragments.length :=
  ⟨runTicks_particles_length noises n _, runTicks_wisps_length noises n _, by
    rw [runTicks_fragments]⟩

/-- Claim C2 (evaluation of the code): no tick ever changes
`stress_fragments` — `animate` calls no function that reads or writes
them, so no fragment is advanced toward the center at all. -/
theorem stress_fragments_never_stepped (td : ℕ → ParticleDraws) (s : VizState)
    (noises : ℕ → ℕ → ParticleDraws) (n : ℕ) :
    (tick td s).stress_fragments = s.stress_fragments ∧
      (runTicks noises n s).stress_fragments = s.stress_fragments :=
  ⟨tick_fragments td s, runTicks_fragments noises n s⟩

theorem updateParticle_respawn (sd : ParticleDraws) (p : Particle)
    (h : p.life - 1 ≤ 0) :
    updateParticle sd p =
      { x := centerX + sd.respawnDist * Real.cos sd.respawnAngle
        y := centerY + sd.respawnDist * Real.sin sd.respawnAngle
        vx := sd.respawnVx
        vy := sd.respawnVy
        life := p.max_life
        max_life := p.max_life
        size := p.size
        energy_type := p.energy_type } := by
  simp only [updateParticle]
  rw [if_pos h]

theorem updateParticle_no_respawn (sd : ParticleDraws) (p : Particle)
    (h : ¬p.life - 1 ≤ 0) :
    (updateParticle sd p).life = p.life - 1 ∧
      (updateParticle sd p).max_life = p.max_life ∧
      (updateParticle sd p).size = p.size := by
  simp only [updateParticle]
  rw [if_neg h]
  exact ⟨rfl, rfl, rfl⟩

theorem dist_of_polar (d θ : ℝ) (hd : 0 ≤ d) :
    Real.sqrt ((centerX + d * Real.cos θ - centerX) ^ 2 +
      (centerY + d * Real.sin θ - centerY) ^ 2) = d := by
  have hsum : (centerX + d * Real.cos θ - centerX) ^ 2 +
      (centerY + d * Real.sin θ - centerY) ^ 2 = d ^ 2 := by
    have hpy := Real.sin_sq_add_cos_sq θ
    calc (centerX + d * Real.cos θ - centerX) ^ 2 +
        (centerY + d * Real.sin θ - centerY) ^ 2
        = d ^ 2 * (Real.sin θ ^ 2 + Real.cos θ ^ 2) := by ring
      _ = d ^ 2 := by rw [hpy, mul_one]
  rw [hsum, Real.sqrt_sq hd]

/-- Claim C3: for every particle whose life reaches `≤ 0` during a tick,
the update resets it in place: its new life equals its `max_life`, its
new position lies at a distance in `[150, 250]` from the center (random
angle), and its new velocity components each lie in `[-1, 1]`. -/
theorem respawn_in_place (p : Particle) (sd : ParticleDraws)
    (hl : p.life - 1 ≤ 0)
    (hd1 : 150 ≤ sd.respawnDist) (hd2 : sd.respawnDist ≤ 250)
    (hx1 : -1 ≤ sd.respawnVx) (hx2 : sd.respawnVx ≤ 1)
    (hy1 : -1 ≤ sd.respawnVy) (hy2 : sd.respawnVy ≤ 1) :
    (updateParticle sd p).life = p.max_life ∧
      150 ≤ Real.sqrt (((updateParticle sd p).x - centerX) ^ 2 +
        ((updateParticle sd p).y - centerY) ^ 2) ∧
      Real.sqrt (((updateParticle sd p).x - centerX) ^ 2 +
        ((updateParticle sd p).y - centerY) ^ 2) ≤ 250 ∧
      -1 ≤ (updateParticle sd p).vx ∧ (updateParticle sd p).vx ≤ 1 ∧
      -1 ≤ (updateParticle sd p).vy ∧ (updateParticle sd p).vy ≤ 1 := by
  rw [updateParticle_respawn sd p hl]
  have hdist := dist_of_polar sd.respawnDist sd.respawnAngle (by linarith)
  refine ⟨rfl, ?_, ?_, hx1, hx2, hy1, hy2⟩
  · rw [hdist]; exact hd1
  · rw [hdist]; exact hd2

/-- Witness for C3: the concrete particle `dyingParticle` (life 1) with
respawn draws at angle 0 and distance 200 is reset in place. -/
theorem respawn_in_place_witness :
    (updateParticle respawnDraws dyingParticle).life = dyingParticle.max_life ∧
      150 ≤ Real.sqrt (((updateParticle respawnDraws dyingParticle).x - centerX) ^ 2 +
        ((updateParticle respawnDraws dyingParticle).y - centerY) ^ 2) := by
  have h := respawn_in_place dyingParticle respawnDraws
    (by norm_num [dyingParticle]) (by norm_num [respawnDraws])
    (by norm_num [respawnDraws]) (by norm_num [respawnDraws])
    (by norm_num [respawnDraws]) (by norm_num [respawnDraws])
    (by norm_num [respawnDraws])
  exact ⟨h.1, h.2.1⟩

/-- Claim C4: for every profile with `stress_level` in `[0, 100]`,
initialization creates exactly `max(50, min(200, 150 - stress_level))`
core particles. -/
theorem particle_count_correct (md : MoodData) (pd : ℕ → InitParticleDraws)
    (wd : ℕ → InitWispDraws) (fd : ℕ → InitFragmentDraws)
    (h0 : 0 ≤ md.stress_level) (h1 : md.stress_level ≤ 100) :
    (initState md pd wd fd).particles.length =
      (max 50 (min 200 (150 - md.stress_level))).toNat := by
  simp [initState, particleCount]

/-- Witness for C4: `stress_level = 75` yields 75 particles and
`stress_level = 0` yields 150 particles. -/
theorem particle_count_correct_witness :
    (initState demoMood (fun _ => zeroParticleDraws) (fun _ => zeroWispDraws)
        (fun _ => zeroFragmentDraws)).particles.length = 75 ∧
      (initState calmMood (fun _ => zeroParticleDraws) (fun _ => zeroWispDraws)
        (fun _ => zeroFragmentDraws)).particles.length = 150 := by
  constructor
  · rw [particle_count_correct demoMood _ _ _ (by decide) (by decide)]
    decide
  · rw [particle_count_correct calmMood _ _ _ (by decide) (by decide)]
    decide

/-- Claim C5: for every profile with `economic_pressure` in `[0, 100]`,
initialization creates exactly `max(6, 12 - economic_pressure // 10)`
energy wisps, and this count never changes over any later ticks. -/
theorem wisp_count_correct (md : MoodData) (pd : ℕ → InitParticleDraws)
    (wd : ℕ → InitWispDraws) (fd : ℕ → InitFragmentDraws)
    (h0 : 0 ≤ md.economic_pressure) (h1 : md.economic_pressure ≤ 100)
    (noises : ℕ → ℕ → ParticleDraws) (n : ℕ) :
    (initState md pd wd fd).energy_wisps.length =
        (max 6 (12 - Int.fdiv md.economic_pressure 10)).toNat ∧
      (runTicks noises n (initState md pd wd fd)).energy_wisps.length =
        (max 6 (12 - Int.fdiv md.economic_pressure 10)).toNat := by
  have hinit : (initState md pd wd fd).energy_wisps.length =
      (max 6 (12 - Int.fdiv md.economic_pressure 10)).toNat := by
    simp [initState, wispCount]
  exact ⟨hinit, by rw [runTicks_wisps_length]; exact hinit⟩

/-- Witness for C5: `economic_pressure = 85` yields 6 wisps (also after 4
ticks) and `economic_pressure = 0` yields 12 wisps. -/
theorem wisp_count_correct_witness :
    (initState demoMood (fun _ => zeroParticleDraws) (fun _ => zeroWispDraws)
        (fun _ => zeroFragmentDraws)).energy_wisps.length = 6 ∧
      (runTicks (fun _ _ => zeroTickDraws) 4
        (initState demoMood (fun _ => zeroParticleDraws) (fun _ => zeroWispDraws)
          (fun _ => zeroFragmentDraws))).energy_wisps.length = 6 ∧
      (initState calmMood (fun _ => zeroParticleDraws) (fun _ => zeroWispDraws)
        (fun _ => zeroFragmentDraws)).energy_wisps.length = 12 := by
  have h85 := wisp_count_correct demoMood (fun _ => zeroParticleDraws)
    (fun _ => zeroWispDraws) (fun _ => zeroFragmentDraws) (by decide) (by decide)
    (fun _ _ => zeroTickDraws) 4
  have h0 := wisp_count_correct calmMood (fun _ => zeroParticleDraws)
    (fun _ => zeroWispDraws) (fun _ => zeroFragmentDraws) (by decide) (by decide)
    (fun _ _ => zeroTickDraws) 0
  refine ⟨?_, ?_, ?_⟩
  · rw [h85.1]; decide
  · rw [h85.2]; decide
  · rw [h0.1]; decide

theorem tick_stopped (td : ℕ → ParticleDraws) (s : VizState)
    (h : s.running = false) : tick td s = s := by
  simp [tick, h]

theorem runTicks_stopped (noises : ℕ → ℕ → ParticleDraws) (n : ℕ) (s : VizState)
    (h : s.running = false) : runTicks noises n s = s := by
  induction n generalizing noises with
  | zero => rfl
  | succ n ih => rw [runTicks, tick_stopped _ _ h, ih]

/-- Claim C6: calling `stop` twice produces the same terminal stopped
state as calling it once, with no further ticks run in either case:
`stop` is idempotent and a no-op when already stopped, and after it the
per-tick entry point (`animate`) does nothing. -/
theorem stop_idempotent (s : VizState) :
    stop (stop s) = stop s ∧ (stop s).running = false ∧
      (∀ td, tick td (stop s) = stop s) ∧
      (∀ noises n, runTicks noises n (stop s) = stop s) ∧
      (s.running = false → stop s = s) := by
  refine ⟨rfl, rfl, fun td => tick_stopped td _ rfl,
    fun noises n => runTicks_stopped noises n _ rfl, fun h => ?_⟩
  cases s
  simp only [stop]
  simp_all

/-- Witness for C6: on the concrete stopped state `idleState`, a second
`stop` changes nothing, `stop` itself is a no-op, and a tick and a run of
3 ticks leave the state unchanged. -/
theorem stop_idempotent_witness :
    stop (stop idleState) = stop idleState ∧ stop idleState = idleState ∧
      tick (fun _ => zeroTickDraws) (stop idleState) = stop idleState ∧
      runTicks (fun _ _ => zeroTickDraws) 3 (stop idleState) = stop idleState :=
  ⟨(stop_idempotent idleState).1, (stop_idempotent idleState).2.2.2.2 rfl,
    (stop_idempotent idleState).2.2.1 (fun _ => zeroTickDraws),
    (stop_idempotent idleState).2.2.2.1 (fun _ _ => zeroTickDraws) 3⟩

/-- Claim C7: for every frame and every profile, the StoneCore render
emits at most 10 ovals, and every emitted oval has a strictly positive
computed radius (rings whose computed, compression-scaled size is `≤ 0`
are skipped). -/
theorem stone_core_oval_bound (frame : ℕ) (md : MoodData) :
    (stoneCoreOvals frame md).length ≤ 10 ∧
      (stoneCoreOvals frame md).Forall (fun o => 0 < o.size) := by
  constructor
  · calc (stoneCoreOvals frame md).length ≤ (List.range 10).length :=
        List.length_filterMap_le _ _
      _ = 10 := List.length_range 10
  · rw [List.forall_iff_forall_mem]
    intro o ho
    rcases List.mem_filterMap.mp ho with ⟨ring, _, hf⟩
    unfold stoneCoreRing at hf
    split_ifs at hf with h
    cases hf
    exact h

/-- Claim C8: the per-particle physics update is total, and when the
squared distance from the particle to the center is 0 the divisor of the
centripetal-pull normalization is taken as 1 (and it is positive in every
case), so the normalization never divides by zero. -/
theorem guarded_distance_safe (dx dy : ℝ) :
    0 < guardedDistance dx dy ∧
      (dx * dx + dy * dy = 0 → guardedDistance dx dy = 1) := by
  constructor
  · unfold guardedDistance
    split_ifs with h
    · exact Real.sqrt_pos.mpr h
    · norm_num
  · intro h0
    unfold guardedDistance
    rw [if_neg]
    rw [h0]
    norm_num

/-- Witness for C8: at the exact center (`dx = dy = 0`, squared distance
0) the divisor is 1. -/
theorem guarded_distance_safe_witness : guardedDistance 0 0 = 1 :=
  (guarded_distance_safe 0 0).2 (by norm_num)

/-- Claim C9: for every palette entry that is not a parseable 7-character
hex color, the StoneCore render uses the raw entry string unchanged as
that ring's color; the color computation is total, so the tick completes
without raising. -/
theorem malformed_color_passthrough (entry : String) (sf : ℝ)
    (h : pyParseColor entry = none) : ringColor entry sf = entry := by
  unfold ringColor
  rw [h]

/-- Witness for C9: the entry `#GGGGGG` has 7 characters but is not hex;
the render keeps it unchanged. -/
theorem malformed_color_passthrough_witness :
    pyParseColor ("#GGGGGG") = none ∧ ringColor ("#GGGGGG") 1 = ("#GGGGGG") :=
  ⟨by decide, malformed_color_passthrough ("#GGGGGG") 1 (by decide)⟩

/-- Counterexample to C10 as stated: the draws `overdrawnInit` give a
particle with initial `life = 100.5 > max_life = 100`, yet because
`update_particle_systems` decrements `life` by 1 before the draw, its
first drawn alpha is `99.5 / 100 < 1` — the drawn alpha never exceeds 1
for this particle. -/
theorem initial_life_gt_maxlife_alpha_lt_one :
    (initParticle overdrawnInit).life > (initParticle overdrawnInit).max_life ∧
      drawAlpha (updateParticle zeroTickDraws (initParticle overdrawnInit)) < 1 := by
  have hlife : (initParticle overdrawnInit).life = 100.5 := rfl
  have hmax : (initParticle overdrawnInit).max_life = 100 := rfl
  constructor
  · rw [hlife, hmax]; norm_num
  · have hno : ¬(initParticle overdrawnInit).life - 1 ≤ 0 := by
      rw [hlife]; norm_num
    obtain ⟨hl, hm, _⟩ := updateParticle_no_respawn zeroTickDraws _ hno
    rw [drawAlpha, hl, hm, hlife, hmax]
    norm_num

/-- Claim C10 (amended): a particle's initial `life` and `max_life` come
from two separate `uniform(50, 200)` draws, so draws with
`life > max_life` exist; for a particle whose initial `life` exceeds
`max_life + 1` (the one unit of life spent before the first draw), the
first drawn alpha `life / max_life` exceeds 1 and the drawn radius
`size * alpha` exceeds its nominal size. -/
theorem life_exceeding_maxlife_overdraws (d : InitParticleDraws)
    (sd : ParticleDraws)
    (h1 : 50 ≤ d.life) (h2 : d.life ≤ 200)
    (h3 : 50 ≤ d.max_life) (h4 : d.max_life ≤ 200)
    (h5 : 1 ≤ d.size) (h6 : d.size ≤ 4)
    (h7 : d.max_life + 1 < d.life) :
    (initParticle d).life > (initParticle d).max_life ∧
      1 < drawAlpha (updateParticle sd (initParticle d)) ∧
      (updateParticle sd (initParticle d)).size <
        drawRadius (updateParticle sd (initParticle d)) := by
  have hlife : (initParticle d).life = d.life := rfl
  have hmax : (initParticle d).max_life = d.max_life := rfl
  have hsize : (initParticle d).size = d.size := rfl
  have hno : ¬(initParticle d).life - 1 ≤ 0 := by rw [hlife]; push_neg; linarith
  obtain ⟨hl, hm, hs⟩ := updateParticle_no_respawn sd _ hno
  have halpha : 1 < drawAlpha (updateParticle sd (initParticle d)) := by
    rw [drawAlpha, hl, hm, hlife, hmax]
    rw [lt_div_iff₀ (by linarith : (0:ℝ) < d.max_life)]
    linarith
  refine ⟨by rw [hlife, hmax]; linarith, halpha, ?_⟩
  rw [drawRadius]
  have hspos : 0 < (updateParticle sd (initParticle d)).size := by
    rw [hs, hsize]; linarith
  calc (updateParticle sd (initParticle d)).size
      = (updateParticle sd (initParticle d)).size * 1 := by ring
    _ < (updateParticle sd (initParticle d)).size *
        drawAlpha (updateParticle sd (initParticle d)) := by
      exact mul_lt_mul_of_pos_left halpha hspos

/-- Witness for amended C10: draws `life = 200`, `max_life = 50`,
`size = 2` (all inside their uniform ranges) give first drawn alpha
`199 / 50 > 1` and a drawn radius above the nominal size. -/
theorem life_exceeding_maxlife_overdraws_witness :
    (initParticle hotInit).life > (initParticle hotInit).max_life ∧
      1 < drawAlpha (updateParticle zeroTickDraws (initParticle hotInit)) :=
  ⟨(life_exceeding_maxlife_overdraws hotInit zeroTickDraws
      (by norm_num [hotInit]) (by norm_num [hotInit]) (by norm_num [hotInit])
      (by norm_num [hotInit]) (by norm_num [hotInit]) (by norm_num [hotInit])
      (by norm_num [hotInit])).1,
    (life_exceeding_maxlife_overdraws hotInit zeroTickDraws
      (by norm_num [hotInit]) (by norm_num [hotInit]) (by norm_num [hotInit])
      (by norm_num [hotInit]) (by norm_num [hotInit]) (by norm_num [hotInit])
      (by norm_num [hotInit])).2.1⟩

end MoodRing
